import Mathlib

/-!
Shallow embedding of the interactive map-annotation editing engine
(geometry math, hit detection, entity tools, move/delete meta-tools,
tool registry, GeoJSON interchange), transcribed from the JavaScript
sources, together with theorems settling the specification claims.

Numeric convention: JavaScript numbers are modelled as rationals (ℚ).
The square roots produced by Math.hypot / Math.sqrt in the source are
only ever compared against a non-negative tolerance, so the embedding
works with squared distances and squared tolerances throughout, which
is an equivalent, executable formulation.
-/

/-- A geographic coordinate { lat, lng }. -/
structure Coord where
  lat : ℚ
  lng : ℚ
deriving DecidableEq, Repr

/-- A screen-space position { x, y } (pixels). -/
structure Px where
  x : ℚ
  y : ℚ
deriving DecidableEq, Repr

namespace DrawUtils

/-- Squared distance from point p to the segment a-b, with the projection
parameter clamped to [0,1].  Source: utils/drawing.js `distToSegment`,
which returns `Math.hypot` of the residual; since every caller compares
the result with a tolerance, we carry the square of that value. -/
def distToSegmentSq (p a b : Px) : ℚ :=
  let dx := b.x - a.x
  let dy := b.y - a.y
  if dx = 0 ∧ dy = 0 then
    (p.x - a.x) ^ 2 + (p.y - a.y) ^ 2
  else
    let t := ((p.x - a.x) * dx + (p.y - a.y) * dy) / (dx * dx + dy * dy)
    let clamped := max 0 (min 1 t)
    let x := a.x + clamped * dx
    let y := a.y + clamped * dy
    (p.x - x) ^ 2 + (p.y - y) ^ 2

end DrawUtils

/-- Geometry item as seen by the hit detector.  The source discriminates
structurally: single lat/lng and no points array (Point or Text),
a center property (Sector), or a points array (Line or Polygon). -/
inductive Item where
  | point (pos : Coord)
  | text (pos : Coord)
  | sector (center : Coord)
  | poly (points : List Coord)
deriving DecidableEq, Repr

namespace HitDetector

/-- Squared screen distance between two pixel positions.
Source: utils/hitDetection.js `distancePx` (which takes the square root;
callers only compare with the tolerance, see `distToSegmentSq`). -/
def distancePxSq (a b : Px) : ℚ :=
  let dx := b.x - a.x
  let dy := b.y - a.y
  dx * dx + dy * dy

/-- `hitTestPoint`: projected screen distance to the pointer < tolerance. -/
def hitTestPoint (proj : Coord → Px) (tol : ℚ) (point : Coord) (mousePx : Px) : Bool :=
  distancePxSq mousePx (proj point) < tol ^ 2

/-- `hitTestSector`: screen distance from the projected center < tolerance. -/
def hitTestSector (proj : Coord → Px) (tol : ℚ) (center : Coord) (mousePx : Px) : Bool :=
  distancePxSq mousePx (proj center) < tol ^ 2

/-- Loop of `hitTestPolyline`: scan consecutive vertex pairs
(indices i and i+1 for i = 0 .. n-2). -/
def anySegmentHit (proj : Coord → Px) (tol : ℚ) (mousePx : Px) : List Coord → Bool
  | a :: b :: rest =>
      (DrawUtils.distToSegmentSq mousePx (proj a) (proj b) < tol ^ 2) ||
        anySegmentHit proj tol mousePx (b :: rest)
  | _ => false

/-- `hitTestPolyline`: false for fewer than 2 vertices, else true iff some
consecutive segment is within tolerance.  Note: the loop runs i from 0 to
points.length - 2, so the closing segment of a polygon is NOT tested. -/
def hitTestPolyline (proj : Coord → Px) (tol : ℚ) (points : List Coord) (mousePx : Px) : Bool :=
  if points.length < 2 then false
  else anySegmentHit proj tol mousePx points

/-- `hitTest`: structural dispatch over the item kinds, mirroring the
property probes of the source (lat and no points → point test; center →
sector test; points array → polyline test). -/
def hitTest (proj : Coord → Px) (tol : ℚ) (item : Item) (mousePx : Px) : Bool :=
  match item with
  | .point c => hitTestPoint proj tol c mousePx
  | .text c => hitTestPoint proj tol c mousePx
  | .sector c => hitTestSector proj tol c mousePx
  | .poly pts => hitTestPolyline proj tol pts mousePx

end HitDetector

/-- A tool as seen by the hit detector and the registry: a committed
collection plus at most one in-progress draft (BaseTool.js keeps
`this.items` and `this._draft`; each subclass aliases `items` under a
kind-specific name such as `points`, `lines`, `polygons`, `sectors`,
`texts`, which are the very names the hit detector probes). -/
structure Tool where
  items : List Item
  draft : Option Item := none
deriving DecidableEq, Repr

namespace HitDetector

/-- `extractItems`: the committed collection of a tool.  In the source the
probes `tool.items || tool.points || ...` all resolve to the one committed
array (the kind-specific fields alias `items`); the draft is stored under
`_draft`, which is never probed. -/
def extractItems (t : Tool) : List Item :=
  t.items

/-- `extractList`: the mutable committed list used for deletion.  Tools
without a collection return null and are skipped; an absent list behaves
exactly like an empty one for the scan, so both are modelled by `items`. -/
def extractList (t : Tool) : List Item :=
  t.items

/-- First hit inside one tool's committed collection (inner loop of `pick`). -/
def firstHit (proj : Coord → Px) (tol : ℚ) (mousePx : Px) : List Item → Option Item
  | [] => none
  | it :: rest =>
      if hitTest proj tol it mousePx then some it
      else firstHit proj tol mousePx rest

/-- `pick`: project the pointer once, scan tools in order and within each
its committed items in order, returning the first match. -/
def pick (proj : Coord → Px) (tol : ℚ) (latlng : Coord) : List Tool → Option Item
  | [] => none
  | t :: rest =>
      match firstHit proj tol (proj latlng) (extractItems t) with
      | some it => some it
      | none => pick proj tol latlng rest

/-- Index of the first hit inside one tool's list (inner loop of
`pickForDelete`). -/
def firstHitIdx (proj : Coord → Px) (tol : ℚ) (mousePx : Px) : List Item → Option ℕ
  | [] => none
  | it :: rest =>
      if hitTest proj tol it mousePx then some 0
      else (firstHitIdx proj tol mousePx rest).map (· + 1)

/-- `pickForDelete`: same scan as `pick` but returns the owning collection
(identified here by the tool's position in the scanned list) plus the
index of the hit entity. -/
def pickForDelete (proj : Coord → Px) (tol : ℚ) (latlng : Coord) : List Tool → Option (ℕ × ℕ)
  | [] => none
  | t :: rest =>
      match firstHitIdx proj tol (proj latlng) (extractList t) with
      | some i => some (0, i)
      | none => (pickForDelete proj tol latlng rest).map (fun p => (p.1 + 1, p.2))

/-- Outer loop of `pickAll`, accumulating hits tool by tool; the counter
identifies the owning tool (the source stores the tool reference and its
class name alongside each hit item). -/
def pickAllGo (proj : Coord → Px) (tol : ℚ) (mousePx : Px) : ℕ → List Tool → List (Item × ℕ)
  | _, [] => []
  | i, t :: rest =>
      ((extractItems t).filter (fun it => hitTest proj tol it mousePx)).map
          (fun it => (it, i)) ++
        pickAllGo proj tol mousePx (i + 1) rest

/-- `pickAll`: every hit item, paired with the scanned index of its tool. -/
def pickAll (proj : Coord → Px) (tol : ℚ) (latlng : Coord) (tools : List Tool) :
    List (Item × ℕ) :=
  pickAllGo proj tol (proj latlng) 0 tools

/-- A geographic bounding box { minLat, maxLat, minLng, maxLng }. -/
structure Bounds where
  minLat : ℚ
  maxLat : ℚ
  minLng : ℚ
  maxLng : ℚ
deriving DecidableEq, Repr

/-- `pointInBounds`: inclusive lat/lng rectangle membership. -/
def pointInBounds (p : Coord) (b : Bounds) : Bool :=
  b.minLat ≤ p.lat && p.lat ≤ b.maxLat && b.minLng ≤ p.lng && p.lng ≤ b.maxLng

/-- `isInBounds`: anchor coordinate for point/text, center for sector,
any vertex for line/polygon. -/
def isInBounds (item : Item) (b : Bounds) : Bool :=
  match item with
  | .point c => pointInBounds c b
  | .text c => pointInBounds c b
  | .sector c => pointInBounds c b
  | .poly pts => pts.any (fun p => pointInBounds p b)

/-- Outer loop of `pickInBounds`, accumulating in-bounds items per tool. -/
def pickInBoundsGo (b : Bounds) : ℕ → List Tool → List (Item × ℕ)
  | _, [] => []
  | i, t :: rest =>
      ((extractItems t).filter (fun it => isInBounds it b)).map (fun it => (it, i)) ++
        pickInBoundsGo b (i + 1) rest

/-- `pickInBounds`: every in-bounds item, paired with its tool's index. -/
def pickInBounds (b : Bounds) (tools : List Tool) : List (Item × ℕ) :=
  pickInBoundsGo b 0 tools

end HitDetector

namespace DeleteTool

/-- DeleteTool.add: resolve the hit's owning collection and index via
`pickForDelete` and splice out exactly that index; silent no-op when
nothing is hit. -/
def add (proj : Coord → Px) (tol : ℚ) (latlng : Coord) (tools : List Tool) : List Tool :=
  match HitDetector.pickForDelete proj tol latlng tools with
  | none => tools
  | some (ti, i) =>
      tools.mapIdx fun k t =>
        if k = ti then { t with items := t.items.eraseIdx i } else t

end DeleteTool

/-- A committed Point entity (tools/PointsTool.js): coordinate, nullable
elevation, plus the copied style snapshot { color, symbol }. -/
structure PointEntity where
  lat : ℚ
  lng : ℚ
  elev : Option ℚ
  color : String
  symbol : String
deriving DecidableEq, Repr

/-- One vertex of a Line entity: coordinate plus nullable elevation. -/
structure LineVertex where
  lat : ℚ
  lng : ℚ
  elev : Option ℚ
deriving DecidableEq, Repr

/-- A Line entity (tools/PolylineTool.js): vertex list plus the copied
style snapshot { color, style }. -/
structure LineEntity where
  points : List LineVertex
  color : String
  style : String
deriving DecidableEq, Repr

/-- A Polygon entity / draft (tools/PolygonTool.js): vertex list plus the
copied style snapshot { color, alpha }.  Drafts and committed polygons
share this shape. -/
structure PolygonEntity where
  points : List Coord
  color : String
  alpha : ℚ
deriving DecidableEq, Repr

/-- A Sector entity (tools/SectorTool.js): center, radius (m), bearing and
angular span (degrees), nullable center elevation, plus color. -/
structure SectorEntity where
  center : Coord
  radius : ℚ
  bearing : ℚ
  angle : ℚ
  elev : Option ℚ
  color : String
deriving DecidableEq, Repr

/-- A committed Text entity.  In the source, committed texts are objects
{ lat, lng, text, color, size } (built by `fromGeoJSON`; `finish` pushes
the draft object when its `text` passes the emptiness check).  `text` is
`Option String` because a pushed draft carries no `text` property (see
`TextDraft`): `none` models an absent/undefined property. -/
structure TextEntity where
  lat : ℚ
  lng : ℚ
  text : Option String
  color : String
  size : ℚ
deriving DecidableEq, Repr

/-- A Text draft as built by TextTool.add: the clicked coordinate spread
with the style snapshot for "text", which is { value, color, size }
(core/StyleManager.js).  The snapshot contributes an editable `value`
string — not a `text` property — so `text` is absent (`none`) on every
freshly created draft. -/
structure TextDraft where
  lat : ℚ
  lng : ℚ
  value : String
  color : String
  size : ℚ
  text : Option String
deriving DecidableEq, Repr

/-- The transcendental primitives of the JavaScript Math object used by
utils/geometry.js, abstracted as rational-valued functions so that the
formulas can be transcribed literally while staying executable. -/
structure JsMath where
  sin : ℚ → ℚ
  cos : ℚ → ℚ
  asin : ℚ → ℚ
  atan2 : ℚ → ℚ → ℚ
  sqrt : ℚ → ℚ
  pi : ℚ

namespace GeoUtils

/-- Earth radius in meters (utils/geometry.js EARTH_RADIUS). -/
def EARTH_RADIUS : ℚ := 6378137

/-- Helper: degrees to radians. -/
def toRad (M : JsMath) (degrees : ℚ) : ℚ :=
  degrees * M.pi / 180

/-- Haversine great-circle distance in meters (utils/geometry.js
`distance`), transcribed literally over the abstract Math primitives. -/
def distance (M : JsMath) (a b : Coord) : ℚ :=
  let dLat := toRad M (b.lat - a.lat)
  let dLng := toRad M (b.lng - a.lng)
  let sinLat := M.sin (dLat / 2)
  let sinLng := M.sin (dLng / 2)
  let c := sinLat * sinLat +
    M.cos (toRad M a.lat) * M.cos (toRad M b.lat) * sinLng * sinLng
  2 * EARTH_RADIUS * M.atan2 (M.sqrt c) (M.sqrt (1 - c))

/-- Loop of `polylineLength`: total += distance(points[i], points[i+1]). -/
def pairwiseSum (M : JsMath) : List Coord → ℚ
  | a :: b :: rest => distance M a b + pairwiseSum M (b :: rest)
  | _ => 0

/-- `polylineLength`: 0 for fewer than 2 points, else the cumulative sum of
pairwise haversine distances over consecutive vertices. -/
def polylineLength (M : JsMath) (points : List Coord) : ℚ :=
  if points.length < 2 then 0 else pairwiseSum M points

/-- Helper: radians to degrees. -/
def toDeg (M : JsMath) (radians : ℚ) : ℚ :=
  radians * 180 / M.pi

/-- `project`: destination point from a center, distance (m) and bearing
(degrees), transcribed literally over the abstract Math primitives. -/
def project (M : JsMath) (center : Coord) (dist brg : ℚ) : Coord :=
  let b := toRad M brg
  let lat1 := toRad M center.lat
  let lng1 := toRad M center.lng
  let lat2 := M.asin
    (M.sin lat1 * M.cos (dist / EARTH_RADIUS) +
      M.cos lat1 * M.sin (dist / EARTH_RADIUS) * M.cos b)
  let lng2 := lng1 +
    M.atan2 (M.sin b * M.sin (dist / EARTH_RADIUS) * M.cos lat1)
      (M.cos (dist / EARTH_RADIUS) - M.sin lat1 * M.sin lat2)
  ⟨toDeg M lat2, toDeg M lng2⟩

/-- `sectorCoordinates`: ring of [lng, lat] pairs for a sector wedge —
center, arc points stepped 3 degrees apart across the angular span (the
loop runs a from -angle/2 while a ≤ angle/2), and the center again. -/
def sectorCoordinates (M : JsMath) (s : SectorEntity) : List (ℚ × ℚ) :=
  let step : ℚ := 3
  let steps : ℕ := if s.angle < 0 then 0 else (⌊s.angle / step⌋).toNat + 1
  let arc := (List.range steps).map fun k =>
    let p := project M s.center s.radius (s.bearing + (-s.angle / 2 + step * k))
    (p.lng, p.lat)
  ((s.center.lng, s.center.lat) :: arc) ++ [(s.center.lng, s.center.lat)]

/-- `polygonArea`: planar shoelace formula on raw degree coordinates,
scaled by an approximate meters-per-degree constant squared. -/
def polygonArea (points : List Coord) : ℚ :=
  if points.length < 3 then 0
  else
    let n := points.length
    let term := fun i =>
      let p := points.getD i ⟨0, 0⟩
      let q := points.getD ((i + 1) % n) ⟨0, 0⟩
      p.lng * q.lat - q.lng * p.lat
    let area := |((List.range n).map term).sum| / 2
    area * 111320 * 111320

/-- Display unit selected by `formatDistance`. -/
inductive DistUnit where
  | meters
  | kilometers
deriving DecidableEq, Repr

/-- `formatDistance`: below 1000 m the value is rendered in meters,
otherwise it is divided by 1000 and rendered in kilometers.  The string
interpolation itself (`toFixed`) is display-only; the embedding captures
the selected unit and the displayed magnitude. -/
def formatDistance (meters : ℚ) : DistUnit × ℚ :=
  if meters < 1000 then (DistUnit.meters, meters)
  else (DistUnit.kilometers, meters / 1000)

end GeoUtils

namespace MoveTool

/-- `applyDelta` for the Item view used by hit detection and movement:
Point/Text translate the single coordinate, Sector translates only its
center, Line/Polygon translate every vertex, pairing origin vertex i with
live vertex i.  The fields are recomputed from `origin`. -/
def applyDelta (origin : Item) (dLat dLng : ℚ) : Item :=
  match origin with
  | .point c => .point ⟨c.lat + dLat, c.lng + dLng⟩
  | .text c => .text ⟨c.lat + dLat, c.lng + dLng⟩
  | .sector c => .sector ⟨c.lat + dLat, c.lng + dLng⟩
  | .poly pts => .poly (pts.map fun v => ⟨v.lat + dLat, v.lng + dLng⟩)

/-- Drag state: the deep-copied movement origin of the picked entity and
the starting pointer coordinate (`_origin`, `_start`; the live `_target`
is the tracked entity itself). -/
structure DragState where
  origin : Item
  start : Coord
deriving DecidableEq, Repr

/-- `onMouseDown` on a hit: records a structural copy of the hit entity as
the origin plus the starting pointer coordinate; on a miss the state is
unchanged. -/
def onMouseDown (entity : Item) (st : Option DragState) (latlng : Coord)
    (hit : Bool) : Option DragState :=
  if hit then some ⟨entity, latlng⟩ else st

/-- `onMouseMove`: with no target the entity is untouched; otherwise the
delta from the recorded start is applied to the origin copy. -/
def onMouseMove (entity : Item) (st : Option DragState) (latlng : Coord) : Item :=
  match st with
  | none => entity
  | some s => applyDelta s.origin (latlng.lat - s.start.lat) (latlng.lng - s.start.lng)

/-- `finish`: clears target/origin/start, ending the move. -/
def finish : Option DragState := none

/-- One complete drag on a hit entity: pointer-down at `start` (hit),
pointer-move to `stop`, pointer-up. -/
def completeDrag (entity : Item) (start stop : Coord) : Item :=
  let st := onMouseDown entity none start true
  onMouseMove entity st stop

end MoveTool

/-- JavaScript `a || b` on an optional string: the fallback fires when the
value is absent/null/undefined or the empty string (falsy). -/
def jsOrStr (o : Option String) (d : String) : String :=
  match o with
  | none => d
  | some s => if s = "" then d else s

/-- JavaScript `a || b` on an optional number: the fallback fires when the
value is absent/null/undefined or 0 (falsy). -/
def jsOrNum (o : Option ℚ) (d : ℚ) : ℚ :=
  match o with
  | none => d
  | some q => if q = 0 then d else q

namespace StyleManager

/-- Default style snapshot for the "text" tool: { value: '', color:
'black', size: 14 } (core/StyleManager.js styles.text). -/
structure TextStyle where
  value : String := ""
  color : String := "black"
  size : ℚ := 14
deriving DecidableEq, Repr

end StyleManager

namespace TextTool

/-- TextTool.add: creates a one-shot draft at the clicked coordinate
holding the style snapshot.  The snapshot has keys value/color/size, so
the draft's `text` property is absent. -/
def add (latlng : Coord) (snapshot : StyleManager.TextStyle) : Option TextDraft :=
  some ⟨latlng.lat, latlng.lng, snapshot.value, snapshot.color, snapshot.size, none⟩

/-- TextTool.finish evaluates `this._draft.text.trim()`.  When the draft
exists but has no `text` property that access throws a TypeError (the
draft is left in place and nothing is cleared); this is modelled by
`Except.error`.  Otherwise the draft commits only when the trimmed text
is non-empty, and the draft is cleared either way. -/
def finish (texts : List TextEntity) (draft : Option TextDraft) :
    Except String (List TextEntity × Option TextDraft) :=
  match draft with
  | none => .ok (texts, none)
  | some d =>
      match d.text with
      | none => .error "TypeError: undefined has no method trim"
      | some s =>
          if s.trim ≠ "" then .ok (texts ++ [⟨d.lat, d.lng, some s, d.color, d.size⟩], none)
          else .ok (texts, none)

end TextTool

namespace PolygonTool

/-- Polygon tool state: committed polygons, at most one draft, transient
hover coordinate. -/
structure State where
  polygons : List PolygonEntity
  draft : Option PolygonEntity
  hover : Option Coord
deriving DecidableEq, Repr

/-- PolygonTool.add: auto-create the draft from the style snapshot on the
first click, then append the clicked vertex. -/
def add (st : State) (latlng : Coord) (snapColor : String) (snapAlpha : ℚ) : State :=
  let d := st.draft.getD ⟨[], snapColor, snapAlpha⟩
  { st with draft := some { d with points := d.points ++ [⟨latlng.lat, latlng.lng⟩] } }

/-- PolygonTool.finish: commit the draft iff it has more than 2 vertices;
the draft and hover state are cleared either way. -/
def finish (st : State) : State :=
  match st.draft with
  | some d =>
      if d.points.length > 2 then ⟨st.polygons ++ [d], none, none⟩
      else ⟨st.polygons, none, none⟩
  | none => ⟨st.polygons, none, none⟩

end PolygonTool

namespace ToolManager

/-- The registry: tool instances keyed by name, in registration order.
The "explore" placeholder is registered as null (`none`). -/
structure Registry where
  entries : List (String × Option Tool)
deriving DecidableEq, Repr

/-- Names excluded from `getDrawingTools` (core/ToolManager.js). -/
def excludeNames : List String := ["explore", "move", "delete"]

/-- `getDrawingTools`: all registered non-null tools except explore and
the two meta-tools. -/
def getDrawingTools (r : Registry) : List Tool :=
  r.entries.filterMap fun p =>
    if p.1 ∈ excludeNames then none else p.2

/-- `clearAllData`: truncates every drawing tool's data arrays (`items`
and its kind-specific aliases all denote the same committed array).  The
`_draft` field of each tool is not touched. -/
def clearAllData (r : Registry) : Registry :=
  ⟨r.entries.map fun p =>
    if p.1 ∈ excludeNames then p
    else (p.1, p.2.map fun t => { t with items := [] })⟩

end ToolManager

/-- GeoJSON geometry as used by the five tools: a Point coordinate pair,
a LineString coordinate sequence, or a Polygon ring list.  Coordinate
pairs are (lng, lat) as in the source. -/
inductive Geometry where
  | point (lng lat : ℚ)
  | lineString (coords : List (ℚ × ℚ))
  | polygon (rings : List (List (ℚ × ℚ)))
deriving DecidableEq, Repr

/-- The feature property bag, with one optional slot per key any tool
reads or writes.  An outer `none` models an absent (or null) key.  For
`elevation` and `text`, whose producers may write an explicit null /
undefined value, the inner Option carries that value. -/
structure FeatureProps where
  type : Option String := none
  elevation : Option (Option ℚ) := none
  color : Option String := none
  symbol : Option String := none
  style : Option String := none
  text : Option (Option String) := none
  size : Option ℚ := none
  alpha : Option ℚ := none
  center : Option Coord := none
  radius : Option ℚ := none
  bearing : Option ℚ := none
  angle : Option ℚ := none
  distance : Option ℚ := none
  area : Option ℚ := none
deriving DecidableEq, Repr

/-- A GeoJSON feature (the constant "type": "Feature" tag is implicit). -/
structure Feature where
  geometry : Geometry
  props : FeatureProps
deriving DecidableEq, Repr

namespace Geometry

/-- The GeoJSON type tag of a geometry (`f.geometry.type`). -/
def typeName : Geometry → String
  | .point _ _ => "Point"
  | .lineString _ => "LineString"
  | .polygon _ => "Polygon"

end Geometry

namespace PointsTool

/-- PointsTool.accepts: a Point geometry with no (truthy) type property. -/
def accepts (f : Feature) : Bool :=
  f.geometry.typeName = "Point" && !(jsOrStr f.props.type "" ≠ "")

/-- PointsTool.toGeoJSON: one Point feature per committed point, with the
elevation written explicitly (null when the lookup has not resolved). -/
def toGeoJSON (points : List PointEntity) : List Feature :=
  points.map fun p =>
    { geometry := .point p.lng p.lat
      props := { elevation := some p.elev, color := some p.color, symbol := some p.symbol } }

/-- PointsTool.fromGeoJSON: guarded by `accepts`; destructures the
coordinate pair and defaults color/symbol with `??`. -/
def fromGeoJSON (points : List PointEntity) (f : Feature) : List PointEntity :=
  if !accepts f then points
  else
    match f.geometry with
    | .point lng lat =>
        points ++ [⟨lat, lng, f.props.elevation.join,
          f.props.color.getD "black", f.props.symbol.getD "circle"⟩]
    | _ => points

end PointsTool

namespace PolylineTool

/-- PolylineTool.accepts: any LineString geometry. -/
def accepts (f : Feature) : Bool :=
  f.geometry.typeName = "LineString"

/-- The { lat, lng } view of a line vertex (the geometry math reads only
those two fields). -/
def vertexCoord (v : LineVertex) : Coord :=
  ⟨v.lat, v.lng⟩

/-- PolylineTool.toGeoJSON: coordinates are bare (lng, lat) pairs — the
per-vertex elevations are not written — plus color, style and the total
haversine length as properties. -/
def toGeoJSON (M : JsMath) (lines : List LineEntity) : List Feature :=
  lines.map fun l =>
    { geometry := .lineString (l.points.map fun p => (p.lng, p.lat))
      props := { color := some l.color, style := some l.style,
                 distance := some (GeoUtils.polylineLength M (l.points.map vertexCoord)) } }

/-- PolylineTool.fromGeoJSON: guarded by `accepts`; every imported vertex
gets elevation null, and color/style default through `||`. -/
def fromGeoJSON (lines : List LineEntity) (f : Feature) : List LineEntity :=
  if !accepts f then lines
  else
    match f.geometry with
    | .lineString coords =>
        lines ++ [⟨coords.map fun c => ⟨c.2, c.1, none⟩,
          jsOrStr f.props.color "black", jsOrStr f.props.style "solid"⟩]
    | _ => lines

end PolylineTool

namespace PolygonTool

/-- PolygonTool.accepts: a Polygon geometry not tagged "sector". -/
def accepts (f : Feature) : Bool :=
  f.geometry.typeName = "Polygon" && f.props.type ≠ some "sector"

/-- PolygonTool.toGeoJSON: one closed ring (the vertex list with the
first vertex appended), plus color, alpha and the planar area.  The
source indexes `p.points[0]`, so the ring closing is only meaningful for
non-empty vertex lists (`headD` supplies the default that the source
would crash on). -/
def toGeoJSON (polygons : List PolygonEntity) : List Feature :=
  polygons.map fun p =>
    let h := p.points.headD ⟨0, 0⟩
    { geometry := .polygon [(p.points.map fun pt => (pt.lng, pt.lat)) ++ [(h.lng, h.lat)]]
      props := { color := some p.color, alpha := some p.alpha,
                 area := some (GeoUtils.polygonArea p.points) } }

/-- PolygonTool.fromGeoJSON: guarded by `accepts`; takes the first ring,
drops its closing coordinate (`slice(0, -1)`), and defaults color/alpha
with `??`. -/
def fromGeoJSON (polygons : List PolygonEntity) (f : Feature) : List PolygonEntity :=
  if !accepts f then polygons
  else
    match f.geometry with
    | .polygon rings =>
        let ring := rings.headD []
        polygons ++ [⟨ring.dropLast.map fun c => ⟨c.2, c.1⟩,
          f.props.color.getD "green", f.props.alpha.getD (1 / 4)⟩]
    | _ => polygons

end PolygonTool

namespace SectorTool

/-- SectorTool.accepts: a Polygon geometry tagged "sector". -/
def accepts (f : Feature) : Bool :=
  f.geometry.typeName = "Polygon" && f.props.type = some "sector"

/-- SectorTool.toGeoJSON: the wedge outline as the geometry, with the
defining scalars (center, radius, bearing, angle), the elevation
(explicit null included), color and the sector area as properties. -/
def toGeoJSON (M : JsMath) (sectors : List SectorEntity) : List Feature :=
  sectors.map fun s =>
    { geometry := .polygon [GeoUtils.sectorCoordinates M s]
      props := { type := some "sector", center := some s.center, radius := some s.radius,
                 bearing := some s.bearing, angle := some s.angle, elevation := some s.elev,
                 color := some s.color,
                 area := some (M.pi * s.radius * s.radius * (s.angle / 360)) } }

/-- SectorTool.fromGeoJSON: guarded by `accepts`; reconstructs the sector
from the property scalars (the ring geometry is ignored), defaulting only
the color through `||`.  The direct property reads are total here via
defaults for keys the exporter always writes. -/
def fromGeoJSON (sectors : List SectorEntity) (f : Feature) : List SectorEntity :=
  if !accepts f then sectors
  else
    sectors ++ [⟨f.props.center.getD ⟨0, 0⟩, f.props.radius.getD 0,
      f.props.bearing.getD 0, f.props.angle.getD 0, f.props.elevation.join,
      jsOrStr f.props.color "black"⟩]

end SectorTool

namespace TextTool

/-- TextTool.accepts: a Point geometry tagged "text". -/
def accepts (f : Feature) : Bool :=
  f.geometry.typeName = "Point" && f.props.type = some "text"

/-- TextTool.toGeoJSON: Point geometry tagged "text" with text, color and
size properties. -/
def toGeoJSON (texts : List TextEntity) : List Feature :=
  texts.map fun t =>
    { geometry := .point t.lng t.lat
      props := { type := some "text", text := some t.text,
                 color := some t.color, size := some t.size } }

/-- TextTool.fromGeoJSON: guarded by `accepts`; reads the text property
directly and defaults color/size through `||`. -/
def fromGeoJSON (texts : List TextEntity) (f : Feature) : List TextEntity :=
  if !accepts f then texts
  else
    match f.geometry with
    | .point lng lat =>
        texts ++ [⟨lat, lng, f.props.text.join,
          jsOrStr f.props.color "black", jsOrNum f.props.size 14⟩]
    | _ => texts

end TextTool

/-- The five entity tools' committed collections, as used by the
interchange round trip. -/
structure ToolSet where
  points : List PointEntity
  lines : List LineEntity
  polygons : List PolygonEntity
  sectors : List SectorEntity
  texts : List TextEntity
deriving DecidableEq, Repr

namespace ToolSet

/-- Fresh tool instances: every collection empty. -/
def fresh : ToolSet :=
  ⟨[], [], [], [], []⟩

/-- Export every tool's collection into one interchange document. -/
def exportAll (M : JsMath) (ts : ToolSet) : List Feature :=
  PointsTool.toGeoJSON ts.points ++ PolylineTool.toGeoJSON M ts.lines ++
    PolygonTool.toGeoJSON ts.polygons ++ SectorTool.toGeoJSON M ts.sectors ++
    TextTool.toGeoJSON ts.texts

/-- Offer one feature to every tool; each `fromGeoJSON` self-guards with
its `accepts` predicate, and the five predicates are mutually exclusive,
so each feature is claimed by at most one tool (first-accepting-tool
routing). -/
def importFeature (ts : ToolSet) (f : Feature) : ToolSet :=
  { points := PointsTool.fromGeoJSON ts.points f
    lines := PolylineTool.fromGeoJSON ts.lines f
    polygons := PolygonTool.fromGeoJSON ts.polygons f
    sectors := SectorTool.fromGeoJSON ts.sectors f
    texts := TextTool.fromGeoJSON ts.texts f }

/-- Import a whole document, feature by feature. -/
def importDoc (ts : ToolSet) (doc : List Feature) : ToolSet :=
  doc.foldl importFeature ts

end ToolSet

/-- A concrete screen projection for evaluating scenarios: x := lng,
y := lat (an affine renderer projection instance). -/
def proj0 : Coord → Px :=
  fun c => ⟨c.lng, c.lat⟩

/-- A concrete JsMath instance for evaluating scenarios (the geometry
claims hold for every instance). -/
def M0 : JsMath :=
  ⟨fun _ => 0, fun _ => 0, fun _ => 0, fun _ _ => 0, fun _ => 0, 3⟩

/-- C4: the claim says finishing a freshly created Text draft (built from
the style snapshot) silently discards it with no error.  The snapshot key
is `value`, so the draft has no `text` property and
`this._draft.text.trim()` raises a TypeError instead: nothing is
committed, but the draft is not cleared and an error IS raised.  The
code contradicts its own error-handling contract (and its own
`fromGeoJSON`/`toGeoJSON`, which use the `text` key). -/
theorem textTool_finish_fresh_draft_raises :
    ∀ latlng : Coord, ∀ snapshot : StyleManager.TextStyle,
      TextTool.finish [] (TextTool.add latlng snapshot) =
        Except.error "TypeError: undefined has no method trim" :=
  fun _ _ => rfl

/-- C5: move composition.  Two complete drags (pointer-down on the hit
entity, one pointer-move by delta (a, b), pointer-up) compose into the
single drag by the summed delta, for every entity shape: Point/Text move
their single coordinate, Sector only its center, Line/Polygon every
vertex paired index-by-index with the drag-start snapshot. -/
theorem move_drag_composition (e : Item) (s1 s2 : Coord) (a1 b1 a2 b2 : ℚ) :
    MoveTool.completeDrag (MoveTool.completeDrag e s1 ⟨s1.lat + a1, s1.lng + b1⟩) s2
        ⟨s2.lat + a2, s2.lng + b2⟩ =
      MoveTool.completeDrag e s1 ⟨s1.lat + (a1 + a2), s1.lng + (b1 + b2)⟩ := by
  cases e with
  | point c =>
      simp [MoveTool.completeDrag, MoveTool.onMouseDown, MoveTool.onMouseMove,
        MoveTool.applyDelta]
      constructor <;> ring
  | text c =>
      simp [MoveTool.completeDrag, MoveTool.onMouseDown, MoveTool.onMouseMove,
        MoveTool.applyDelta]
      constructor <;> ring
  | sector c =>
      simp [MoveTool.completeDrag, MoveTool.onMouseDown, MoveTool.onMouseMove,
        MoveTool.applyDelta]
      constructor <;> ring
  | poly pts =>
      simp [MoveTool.completeDrag, MoveTool.onMouseDown, MoveTool.onMouseMove,
        MoveTool.applyDelta, List.map_map]
      intro v _
      constructor <;> ring

/-- C7: a Polygon draft with exactly 2 vertices never commits on finish
(the collection is unchanged and the draft is discarded); a draft with
exactly 3 vertices always commits (it is appended to the collection).
The draft and hover state are cleared either way. -/
theorem polygonTool_finish_two_vs_three (st : PolygonTool.State) (d : PolygonEntity)
    (hd : st.draft = some d) :
    (d.points.length = 2 →
      PolygonTool.finish st = ⟨st.polygons, none, none⟩) ∧
    (d.points.length = 3 →
      PolygonTool.finish st = ⟨st.polygons ++ [d], none, none⟩) := by
  constructor <;> intro h <;> simp [PolygonTool.finish, hd, h]

/-- Witness for C7: a concrete 3-vertex draft commits on finish. -/
theorem polygonTool_finish_two_vs_three_witness :
    PolygonTool.finish ⟨[], some ⟨[⟨0, 0⟩, ⟨0, 1⟩, ⟨1, 1⟩], "green", 1 / 4⟩, none⟩ =
      ⟨[⟨[⟨0, 0⟩, ⟨0, 1⟩, ⟨1, 1⟩], "green", 1 / 4⟩], none, none⟩ :=
  (polygonTool_finish_two_vs_three _ _ rfl).2 rfl

/-- C2 (amended): after clearAllData every drawing tool's committed
collection is empty, but pending drafts are NOT cancelled: every tool's
draft (and the registry's names and null slots) are exactly as before.
The source truncates the data arrays only and never touches `_draft`
(BaseTool.clear, which also nulls the draft, is not called). -/
theorem clearAllData_empties_collections_preserves_drafts (r : ToolManager.Registry) :
    (∀ p ∈ (ToolManager.clearAllData r).entries,
        p.1 ∉ ToolManager.excludeNames → ∀ t, p.2 = some t → t.items = []) ∧
    (ToolManager.clearAllData r).entries.map (fun p => (p.1, p.2.map Tool.draft)) =
      r.entries.map (fun p => (p.1, p.2.map Tool.draft)) := by
  constructor
  · intro p hp hnot t ht
    simp only [ToolManager.clearAllData, List.mem_map] at hp
    obtain ⟨q, hq, rfl⟩ := hp
    by_cases hex : q.1 ∈ ToolManager.excludeNames
    · simp only [if_pos hex] at hnot
      exact absurd hex hnot
    · simp only [if_neg hex] at ht
      cases hq2 : q.2 with
      | none => rw [hq2] at ht; simp at ht
      | some t0 =>
          rw [hq2] at ht
          simp at ht
          simp [← ht]
  · simp only [ToolManager.clearAllData, List.map_map]
    apply List.map_congr_left
    intro q _
    by_cases hex : q.1 ∈ ToolManager.excludeNames
    · simp [Function.comp, hex]
    · simp only [Function.comp, if_neg hex]
      cases q.2 <;> rfl

/-- A concrete registry for the C2 witness. -/
def reg1 : ToolManager.Registry :=
  ⟨[("points", some ⟨[Item.point ⟨0, 0⟩], none⟩), ("explore", none)]⟩

/-- Witness for C2 (amended): on a concrete registry the cleared points
tool has an empty collection and every draft survives unchanged. -/
theorem clearAllData_empties_collections_preserves_drafts_witness :
    (ToolManager.clearAllData reg1).entries.map (fun p => (p.1, p.2.map Tool.draft)) =
        reg1.entries.map (fun p => (p.1, p.2.map Tool.draft)) ∧
      (⟨[], none⟩ : Tool).items = [] :=
  ⟨(clearAllData_empties_collections_preserves_drafts reg1).2,
    (clearAllData_empties_collections_preserves_drafts reg1).1
      ("points", some ⟨[], none⟩) (by decide) (by decide) _ rfl⟩

/-- A registry holding a polygon tool with a pending 1-vertex draft. -/
def reg2 : ToolManager.Registry :=
  ⟨[("polygon", some ⟨[], some (Item.poly [⟨0, 0⟩])⟩)]⟩

/-- Counterexample for C2 as stated: clearing a registry whose polygon
tool has a pending draft leaves that draft in place — it is false that no
tool has a non-null draft after clearAllData. -/
theorem clearAllData_keeps_draft_counterexample :
    (ToolManager.clearAllData reg2).entries =
        [("polygon", some ⟨[], some (Item.poly [⟨0, 0⟩])⟩)] ∧
      ¬ ∀ p ∈ (ToolManager.clearAllData reg2).entries,
          ∀ t, p.2 = some t → t.draft = none := by
  refine ⟨rfl, fun h => ?_⟩
  exact absurd (h ("polygon", some ⟨[], some (Item.poly [⟨0, 0⟩])⟩) (by decide) _ rfl)
    (by decide)

/-- The segment scan hits iff some consecutive vertex pair is within
tolerance (squared comparison). -/
theorem anySegmentHit_iff (proj : Coord → Px) (tol : ℚ) (mousePx : Px) (pts : List Coord) :
    HitDetector.anySegmentHit proj tol mousePx pts = true ↔
      ∃ p ∈ pts.zip pts.tail,
        DrawUtils.distToSegmentSq mousePx (proj p.1) (proj p.2) < tol ^ 2 := by
  induction pts with
  | nil => simp [HitDetector.anySegmentHit]
  | cons a rest ih =>
      cases rest with
      | nil => simp [HitDetector.anySegmentHit]
      | cons b rest2 =>
          simp only [HitDetector.anySegmentHit, Bool.or_eq_true, decide_eq_true_eq, ih,
            List.zip_cons_cons, List.tail_cons, List.mem_cons]
          constructor
          · rintro (h | ⟨p, hp, hd⟩)
            · exact ⟨(a, b), Or.inl rfl, h⟩
            · exact ⟨p, Or.inr hp, hd⟩
          · rintro ⟨p, (rfl | hp), hd⟩
            · exact Or.inl hd
            · exact Or.inr ⟨p, hp, hd⟩

/-- The screen midpoint of a segment is at (squared) distance 0 from it. -/
theorem distToSegmentSq_midpoint (a b : Px) :
    DrawUtils.distToSegmentSq ⟨(a.x + b.x) / 2, (a.y + b.y) / 2⟩ a b = 0 := by
  unfold DrawUtils.distToSegmentSq
  by_cases h : b.x - a.x = 0 ∧ b.y - a.y = 0
  · rw [if_pos h]
    obtain ⟨h1, h2⟩ := h
    rw [sub_eq_zero] at h1 h2
    simp only [h1, h2]
    ring
  · rw [if_neg h]
    have hne : (b.x - a.x) * (b.x - a.x) + (b.y - a.y) * (b.y - a.y) ≠ 0 := by
      intro hz
      exact h ⟨by nlinarith [sq_nonneg (b.x - a.x), sq_nonneg (b.y - a.y)],
        by nlinarith [sq_nonneg (b.x - a.x), sq_nonneg (b.y - a.y)]⟩
    simp only
    have ht : (((a.x + b.x) / 2 - a.x) * (b.x - a.x) + ((a.y + b.y) / 2 - a.y) * (b.y - a.y)) /
        ((b.x - a.x) * (b.x - a.x) + (b.y - a.y) * (b.y - a.y)) = 1 / 2 := by
      rw [div_eq_iff hne]
      ring
    rw [ht]
    have hc : max (0 : ℚ) (min 1 (1 / 2)) = 1 / 2 := by norm_num
    rw [hc]
    ring

/-- A consecutive vertex pair is among the scanned segment pairs. -/
theorem mem_zip_tail (pre post : List Coord) (a b : Coord) :
    (a, b) ∈ (pre ++ a :: b :: post).zip (pre ++ a :: b :: post).tail := by
  induction pre with
  | nil => simp [List.zip_cons_cons]
  | cons p pre2 ih =>
      cases hrest : pre2 ++ a :: b :: post with
      | nil => simp at hrest
      | cons q rest =>
          simp only [List.cons_append, List.tail_cons, hrest, List.zip_cons_cons,
            List.mem_cons]
          right
          have := ih
          rw [hrest] at this
          cases rest with
          | nil => simp at this
          | cons r rest2 => simpa [List.zip_cons_cons] using this

/-- C9: hit-testing a Line.  (1) A pointer position exactly on a
segment's screen midpoint is a hit for any tolerance > 0, for every line
with at least 2 vertices (any vertex lists before and after the
segment).  (2) The comparison is strict: whenever every consecutive
segment is at squared screen distance ≥ tolerance² — in particular when
the closest segment is at distance exactly the tolerance — the test
reports no hit. -/
theorem line_hit_midpoint_and_tolerance_strict :
    (∀ (proj : Coord → Px) (tol : ℚ) (pre post : List Coord) (a b : Coord) (mouse : Px),
        0 < tol →
        mouse = ⟨((proj a).x + (proj b).x) / 2, ((proj a).y + (proj b).y) / 2⟩ →
        HitDetector.hitTestPolyline proj tol (pre ++ a :: b :: post) mouse = true) ∧
    (∀ (proj : Coord → Px) (tol : ℚ) (pts : List Coord) (mouse : Px),
        (∀ p ∈ pts.zip pts.tail,
          tol ^ 2 ≤ DrawUtils.distToSegmentSq mouse (proj p.1) (proj p.2)) →
        HitDetector.hitTestPolyline proj tol pts mouse = false) := by
  constructor
  · intro proj tol pre post a b mouse htol hm
    unfold HitDetector.hitTestPolyline
    rw [if_neg (by simp; omega)]
    rw [anySegmentHit_iff]
    refine ⟨(a, b), mem_zip_tail pre post a b, ?_⟩
    rw [hm, distToSegmentSq_midpoint]
    positivity
  · intro proj tol pts mouse hfar
    unfold HitDetector.hitTestPolyline
    by_cases h : pts.length < 2
    · rw [if_pos h]
    · rw [if_neg h]
      rw [Bool.eq_false_iff]
      intro hhit
      obtain ⟨p, hp, hd⟩ := (anySegmentHit_iff proj tol mouse pts).mp hhit
      exact absurd hd (not_lt.mpr (hfar p hp))

/-- Witness for C9: on the concrete 2-vertex line (0,0)-(0,10) under the
projection x := lng, y := lat, the segment midpoint is a hit at tolerance
8, and a far-away pointer is not. -/
theorem line_hit_midpoint_and_tolerance_strict_witness :
    HitDetector.hitTestPolyline proj0 8 [⟨0, 0⟩, ⟨0, 10⟩]
        ⟨((proj0 ⟨0, 0⟩).x + (proj0 ⟨0, 10⟩).x) / 2,
          ((proj0 ⟨0, 0⟩).y + (proj0 ⟨0, 10⟩).y) / 2⟩ = true ∧
      HitDetector.hitTestPolyline proj0 8 [⟨0, 0⟩, ⟨0, 10⟩] ⟨100, 100⟩ = false :=
  ⟨line_hit_midpoint_and_tolerance_strict.1 proj0 8 [] [] ⟨0, 0⟩ ⟨0, 10⟩ _ (by norm_num) rfl,
    line_hit_midpoint_and_tolerance_strict.2 proj0 8 [⟨0, 0⟩, ⟨0, 10⟩] ⟨100, 100⟩ (by
      intro p hp
      simp only [List.zip_cons_cons, List.tail_cons, List.zip_nil_right,
        List.mem_singleton] at hp
      subst hp
      norm_num [DrawUtils.distToSegmentSq, proj0])⟩

/-- C1 (amended): hit-testing a Polygon.  The hit detector reports a hit
iff the polygon has at least 2 stored vertices and some CONSECUTIVE
vertex pair's segment is within (strictly less than) the tolerance in
screen space.  The closing segment (last vertex back to first) is NOT
tested: polygons are stored as open vertex lists and the scan stops at
the last consecutive pair. -/
theorem hitTestPolyline_iff_consecutive_segment (proj : Coord → Px) (tol : ℚ)
    (pts : List Coord) (mouse : Px) :
    HitDetector.hitTestPolyline proj tol pts mouse = true ↔
      2 ≤ pts.length ∧ ∃ p ∈ pts.zip pts.tail,
        DrawUtils.distToSegmentSq mouse (proj p.1) (proj p.2) < tol ^ 2 := by
  unfold HitDetector.hitTestPolyline
  by_cases h : pts.length < 2
  · rw [if_pos h]
    simp only [Bool.false_eq_true, false_iff]
    rintro ⟨h2, -⟩
    omega
  · rw [if_neg h]
    rw [anySegmentHit_iff]
    exact (and_iff_right (by omega)).symm

/-- Counterexample for C1 as stated: for the stored triangle with screen
vertices (0,0), (10,0), (10,10), a pointer at (5,5) lies exactly on the
closing segment (squared distance 0 < tolerance² = 16), yet the hit
detector reports no hit — the closing segment is never tested. -/
theorem polygon_closing_segment_counterexample :
    HitDetector.hitTestPolyline proj0 4 [⟨0, 0⟩, ⟨0, 10⟩, ⟨10, 10⟩] ⟨5, 5⟩ = false ∧
      DrawUtils.distToSegmentSq ⟨5, 5⟩ (proj0 ⟨10, 10⟩) (proj0 ⟨0, 0⟩) < 4 ^ 2 := by
  constructor
  · norm_num [HitDetector.hitTestPolyline, HitDetector.anySegmentHit,
      DrawUtils.distToSegmentSq, proj0]
  · norm_num [DrawUtils.distToSegmentSq, proj0]

/-- The pairwise-distance loop equals the sum of distances over
consecutive vertex pairs. -/
theorem pairwiseSum_eq_zip_sum (M : JsMath) (pts : List Coord) :
    GeoUtils.pairwiseSum M pts =
      ((pts.zip pts.tail).map fun p => GeoUtils.distance M p.1 p.2).sum := by
  induction pts with
  | nil => simp [GeoUtils.pairwiseSum]
  | cons a rest ih =>
      cases rest with
      | nil => simp [GeoUtils.pairwiseSum]
      | cons b rest2 =>
          simp only [GeoUtils.pairwiseSum, List.zip_cons_cons, List.tail_cons,
            List.map_cons, List.sum_cons, ih]

/-- C6: for every committed Line, the length reported by `polylineLength`
(used by both the on-map label and the exported `distance` property)
equals the sum of haversine distances over consecutive vertex pairs; and
`formatDistance` selects kilometers exactly from 1000 m upwards — the
threshold is inclusive (any value < 1000 m, e.g. 999.999 m, formats in
meters; exactly 1000 m formats in kilometers). -/
theorem line_length_sum_and_km_threshold (M : JsMath) (l : LineEntity) :
    (GeoUtils.polylineLength M (l.points.map PolylineTool.vertexCoord) =
      (((l.points.map PolylineTool.vertexCoord).zip
          (l.points.map PolylineTool.vertexCoord).tail).map
        fun p => GeoUtils.distance M p.1 p.2).sum) ∧
    (GeoUtils.formatDistance 1000).1 = GeoUtils.DistUnit.kilometers ∧
    (∀ q : ℚ, q < 1000 → (GeoUtils.formatDistance q).1 = GeoUtils.DistUnit.meters) := by
  refine ⟨?_, ?_, ?_⟩
  · unfold GeoUtils.polylineLength
    by_cases h : (l.points.map PolylineTool.vertexCoord).length < 2
    · rw [if_pos h]
      match hm : l.points.map PolylineTool.vertexCoord with
      | [] => simp
      | [a] => simp
      | a :: b :: rest => rw [hm] at h; simp at h; omega
    · rw [if_neg h]
      exact pairwiseSum_eq_zip_sum M _
  · simp [GeoUtils.formatDistance]
  · intro q hq
    simp [GeoUtils.formatDistance, hq]

/-- A concrete 3-vertex committed line for the C6 witness. -/
def l0 : LineEntity :=
  ⟨[⟨0, 0, none⟩, ⟨0, 1, none⟩, ⟨1, 1, some 5⟩], "black", "solid"⟩

/-- Witness for C6: the length identity on a concrete 3-vertex line under
a concrete Math instance, plus the unit boundary at 999.999 m and 1000 m. -/
theorem line_length_sum_and_km_threshold_witness :
    (GeoUtils.polylineLength M0 (l0.points.map PolylineTool.vertexCoord) =
      (((l0.points.map PolylineTool.vertexCoord).zip
          (l0.points.map PolylineTool.vertexCoord).tail).map
        fun p => GeoUtils.distance M0 p.1 p.2).sum) ∧
    (GeoUtils.formatDistance 1000).1 = GeoUtils.DistUnit.kilometers ∧
    (GeoUtils.formatDistance (999999 / 1000)).1 = GeoUtils.DistUnit.meters :=
  ⟨(line_length_sum_and_km_threshold M0 l0).1,
    (line_length_sum_and_km_threshold M0 l0).2.1,
    (line_length_sum_and_km_threshold M0 l0).2.2 (999999 / 1000) (by norm_num)⟩

/-- The index returned by the inner delete scan is in range. -/
theorem firstHitIdx_lt_length (proj : Coord → Px) (tol : ℚ) (mousePx : Px)
    (l : List Item) (i : ℕ) (h : HitDetector.firstHitIdx proj tol mousePx l = some i) :
    i < l.length := by
  induction l generalizing i with
  | nil => simp [HitDetector.firstHitIdx] at h
  | cons it rest ih =>
      rw [HitDetector.firstHitIdx] at h
      by_cases hit : HitDetector.hitTest proj tol it mousePx
      · rw [if_pos hit] at h
        cases h
        simp
      · rw [if_neg hit] at h
        cases hj : HitDetector.firstHitIdx proj tol mousePx rest with
        | none => rw [hj] at h; simp at h
        | some j =>
            rw [hj] at h
            injection h with h2
            have h3 : j + 1 = i := h2
            have := ih j hj
            simp only [List.length_cons]
            omega

/-- Decomposition of a successful `pickForDelete`: the returned tool
index is in range and the returned item index is the inner scan's result
on that tool's committed list. -/
theorem pickForDelete_some_decomp (proj : Coord → Px) (tol : ℚ) (latlng : Coord)
    (tools : List Tool) (ti i : ℕ)
    (h : HitDetector.pickForDelete proj tol latlng tools = some (ti, i)) :
    ∃ hlt : ti < tools.length,
      HitDetector.firstHitIdx proj tol (proj latlng) (tools.get ⟨ti, hlt⟩).items = some i := by
  induction tools generalizing ti i with
  | nil => simp [HitDetector.pickForDelete] at h
  | cons t rest ih =>
      rw [HitDetector.pickForDelete] at h
      cases hf : HitDetector.firstHitIdx proj tol (proj latlng) (HitDetector.extractList t) with
      | some j =>
          rw [hf] at h
          injection h with h2
          cases h2
          exact ⟨by simp, hf⟩
      | none =>
          rw [hf] at h
          cases hp : HitDetector.pickForDelete proj tol latlng rest with
          | none => rw [hp] at h; simp at h
          | some q =>
              obtain ⟨tj, j⟩ := q
              rw [hp] at h
              injection h with h2
              cases h2
              obtain ⟨hlt, hfi⟩ := ih tj j hp
              refine ⟨by simp only [List.length_cons]; omega, ?_⟩
              simpa using hfi

/-- C8: when pickForDelete resolves a hit at index i of the tool at scan
position ti, the delete action removes exactly that one entity: the
owning collection becomes its prefix before i followed by its suffix
after i (relative order of all the remaining entities preserved), i is
in range, and every other tool's collection is untouched.  When nothing
is under the pointer, every collection is unchanged (silent no-op). -/
theorem deleteTool_removes_exactly_hit_index (proj : Coord → Px) (tol : ℚ)
    (latlng : Coord) (tools : List Tool) :
    (∀ ti i, HitDetector.pickForDelete proj tol latlng tools = some (ti, i) →
      ∃ hlt : ti < tools.length,
        i < (tools.get ⟨ti, hlt⟩).items.length ∧
        DeleteTool.add proj tol latlng tools =
          tools.mapIdx fun k t =>
            if k = ti then { t with items := t.items.take i ++ t.items.drop (i + 1) }
            else t) ∧
    (HitDetector.pickForDelete proj tol latlng tools = none →
      DeleteTool.add proj tol latlng tools = tools) := by
  constructor
  · intro ti i h
    obtain ⟨hlt, hfi⟩ := pickForDelete_some_decomp proj tol latlng tools ti i h
    refine ⟨hlt, firstHitIdx_lt_length proj tol (proj latlng) _ i hfi, ?_⟩
    unfold DeleteTool.add
    rw [h]
    simp only [List.eraseIdx_eq_take_drop_succ]
  · intro h
    unfold DeleteTool.add
    rw [h]

/-- Witness for C8: on one tool owning two points, a click on the first
point deletes exactly it (the second survives, order intact); a click far
from everything changes nothing. -/
theorem deleteTool_removes_exactly_hit_index_witness :
    DeleteTool.add proj0 8 ⟨0, 0⟩ [⟨[Item.point ⟨0, 0⟩, Item.point ⟨50, 50⟩], none⟩] =
        [⟨[Item.point ⟨50, 50⟩], none⟩] ∧
      DeleteTool.add proj0 8 ⟨200, 200⟩ [⟨[Item.point ⟨0, 0⟩, Item.point ⟨50, 50⟩], none⟩] =
        [⟨[Item.point ⟨0, 0⟩, Item.point ⟨50, 50⟩], none⟩] := by
  constructor
  · have h1 : HitDetector.pickForDelete proj0 8 ⟨0, 0⟩
        [⟨[Item.point ⟨0, 0⟩, Item.point ⟨50, 50⟩], none⟩] = some (0, 0) := by
      norm_num [HitDetector.pickForDelete, HitDetector.firstHitIdx,
        HitDetector.extractList, HitDetector.hitTest, HitDetector.hitTestPoint,
        HitDetector.distancePxSq, proj0]
    obtain ⟨hlt, hi, heq⟩ :=
      (deleteTool_removes_exactly_hit_index proj0 8 ⟨0, 0⟩
        [⟨[Item.point ⟨0, 0⟩, Item.point ⟨50, 50⟩], none⟩]).1 0 0 h1
    rw [heq]
    rfl
  · have h2 : HitDetector.pickForDelete proj0 8 ⟨200, 200⟩
        [⟨[Item.point ⟨0, 0⟩, Item.point ⟨50, 50⟩], none⟩] = none := by
      norm_num [HitDetector.pickForDelete, HitDetector.firstHitIdx,
        HitDetector.extractList, HitDetector.hitTest, HitDetector.hitTestPoint,
        HitDetector.distancePxSq, proj0]
    exact (deleteTool_removes_exactly_hit_index proj0 8 ⟨200, 200⟩
      [⟨[Item.point ⟨0, 0⟩, Item.point ⟨50, 50⟩], none⟩]).2 h2

/-- `pick` depends only on the tools' committed item lists. -/
theorem pick_congr_items (proj : Coord → Px) (tol : ℚ) (latlng : Coord)
    (t1 t2 : List Tool) (hsame : t1.map Tool.items = t2.map Tool.items) :
    HitDetector.pick proj tol latlng t1 = HitDetector.pick proj tol latlng t2 := by
  induction t1 generalizing t2 with
  | nil =>
      cases t2 with
      | nil => rfl
      | cons u us => simp at hsame
  | cons t rest ih =>
      cases t2 with
      | nil => simp at hsame
      | cons u us =>
          simp only [List.map_cons, List.cons.injEq] at hsame
          obtain ⟨h1, h2⟩ := hsame
          rw [HitDetector.pick, HitDetector.pick, HitDetector.extractItems,
            HitDetector.extractItems, h1, ih us h2]

/-- `pickForDelete` depends only on the tools' committed item lists. -/
theorem pickForDelete_congr_items (proj : Coord → Px) (tol : ℚ) (latlng : Coord)
    (t1 t2 : List Tool) (hsame : t1.map Tool.items = t2.map Tool.items) :
    HitDetector.pickForDelete proj tol latlng t1 =
      HitDetector.pickForDelete proj tol latlng t2 := by
  induction t1 generalizing t2 with
  | nil =>
      cases t2 with
      | nil => rfl
      | cons u us => simp at hsame
  | cons t rest ih =>
      cases t2 with
      | nil => simp at hsame
      | cons u us =>
          simp only [List.map_cons, List.cons.injEq] at hsame
          obtain ⟨h1, h2⟩ := hsame
          rw [HitDetector.pickForDelete, HitDetector.pickForDelete,
            HitDetector.extractList, HitDetector.extractList, h1, ih us h2]

/-- The `pickAll` loop depends only on the tools' committed item lists. -/
theorem pickAllGo_congr_items (proj : Coord → Px) (tol : ℚ) (mousePx : Px)
    (i : ℕ) (t1 t2 : List Tool) (hsame : t1.map Tool.items = t2.map Tool.items) :
    HitDetector.pickAllGo proj tol mousePx i t1 =
      HitDetector.pickAllGo proj tol mousePx i t2 := by
  induction t1 generalizing t2 i with
  | nil =>
      cases t2 with
      | nil => rfl
      | cons u us => simp at hsame
  | cons t rest ih =>
      cases t2 with
      | nil => simp at hsame
      | cons u us =>
          simp only [List.map_cons, List.cons.injEq] at hsame
          obtain ⟨h1, h2⟩ := hsame
          rw [HitDetector.pickAllGo, HitDetector.pickAllGo, HitDetector.extractItems,
            HitDetector.extractItems, h1, ih (i + 1) us h2]

/-- The `pickInBounds` loop depends only on the tools' committed item lists. -/
theorem pickInBoundsGo_congr_items (b : HitDetector.Bounds) (i : ℕ)
    (t1 t2 : List Tool) (hsame : t1.map Tool.items = t2.map Tool.items) :
    HitDetector.pickInBoundsGo b i t1 = HitDetector.pickInBoundsGo b i t2 := by
  induction t1 generalizing t2 i with
  | nil =>
      cases t2 with
      | nil => rfl
      | cons u us => simp at hsame
  | cons t rest ih =>
      cases t2 with
      | nil => simp at hsame
      | cons u us =>
          simp only [List.map_cons, List.cons.injEq] at hsame
          obtain ⟨h1, h2⟩ := hsame
          rw [HitDetector.pickInBoundsGo, HitDetector.pickInBoundsGo,
            HitDetector.extractItems, HitDetector.extractItems, h1, ih (i + 1) us h2]

/-- An item found by the inner scan belongs to the scanned list. -/
theorem firstHit_mem (proj : Coord → Px) (tol : ℚ) (mousePx : Px) (l : List Item)
    (it : Item) (h : HitDetector.firstHit proj tol mousePx l = some it) : it ∈ l := by
  induction l with
  | nil => simp [HitDetector.firstHit] at h
  | cons a rest ih =>
      rw [HitDetector.firstHit] at h
      by_cases hit : HitDetector.hitTest proj tol a mousePx
      · rw [if_pos hit] at h
        cases h
        simp
      · rw [if_neg hit] at h
        exact List.mem_cons_of_mem a (ih h)

/-- A picked item belongs to some scanned tool's committed collection. -/
theorem pick_mem_committed (proj : Coord → Px) (tol : ℚ) (latlng : Coord)
    (tools : List Tool) (it : Item)
    (h : HitDetector.pick proj tol latlng tools = some it) :
    ∃ t ∈ tools, it ∈ t.items := by
  induction tools with
  | nil => simp [HitDetector.pick] at h
  | cons t rest ih =>
      rw [HitDetector.pick] at h
      cases hf : HitDetector.firstHit proj tol (proj latlng) (HitDetector.extractItems t) with
      | some j =>
          rw [hf] at h
          cases h
          exact ⟨t, List.mem_cons_self t rest, firstHit_mem _ _ _ _ _ hf⟩
      | none =>
          rw [hf] at h
          obtain ⟨u, hu, hit2⟩ := ih h
          exact ⟨u, List.mem_cons_of_mem t hu, hit2⟩

/-- C10: the hit detector scans only the tools' committed collections.
Any two tool lists with the same committed item lists — in particular a
list with arbitrary in-progress drafts and the same list with all drafts
cleared — give identical results for pick, pickForDelete, pickAll and
pickInBounds, and any item returned by pick is a member of some tool's
committed collection (never a draft): an entity can be moved or deleted
only after it has been committed. -/
theorem picking_scans_only_committed_collections (proj : Coord → Px) (tol : ℚ)
    (latlng : Coord) (b : HitDetector.Bounds) (tools tools2 : List Tool)
    (hsame : tools.map Tool.items = tools2.map Tool.items) :
    HitDetector.pick proj tol latlng tools = HitDetector.pick proj tol latlng tools2 ∧
    HitDetector.pickForDelete proj tol latlng tools =
      HitDetector.pickForDelete proj tol latlng tools2 ∧
    HitDetector.pickAll proj tol latlng tools = HitDetector.pickAll proj tol latlng tools2 ∧
    HitDetector.pickInBounds b tools = HitDetector.pickInBounds b tools2 ∧
    (∀ it, HitDetector.pick proj tol latlng tools = some it → ∃ t ∈ tools, it ∈ t.items) :=
  ⟨pick_congr_items proj tol latlng tools tools2 hsame,
    pickForDelete_congr_items proj tol latlng tools tools2 hsame,
    pickAllGo_congr_items proj tol (proj latlng) 0 tools tools2 hsame,
    pickInBoundsGo_congr_items b 0 tools tools2 hsame,
    fun it h => pick_mem_committed proj tol latlng tools it h⟩

/-- Witness for C10: a tool with a pending draft and one committed point;
with the draft present or cleared, pick returns the same committed point,
which is indeed in the committed collection, and the draft is never
returned even though it would be under the pointer. -/
theorem picking_scans_only_committed_collections_witness :
    HitDetector.pick proj0 8 ⟨0, 0⟩
        [⟨[Item.point ⟨0, 0⟩], some (Item.text ⟨0, 0⟩)⟩] =
      HitDetector.pick proj0 8 ⟨0, 0⟩ [⟨[Item.point ⟨0, 0⟩], none⟩] ∧
    (∀ it, HitDetector.pick proj0 8 ⟨0, 0⟩
        [⟨[Item.point ⟨0, 0⟩], some (Item.text ⟨0, 0⟩)⟩] = some it →
      ∃ t ∈ [(⟨[Item.point ⟨0, 0⟩], some (Item.text ⟨0, 0⟩)⟩ : Tool)], it ∈ t.items) :=
  ⟨(picking_scans_only_committed_collections proj0 8 ⟨0, 0⟩ ⟨0, 0, 0, 0⟩
      [⟨[Item.point ⟨0, 0⟩], some (Item.text ⟨0, 0⟩)⟩]
      [⟨[Item.point ⟨0, 0⟩], none⟩] rfl).1,
    (picking_scans_only_committed_collections proj0 8 ⟨0, 0⟩ ⟨0, 0, 0, 0⟩
      [⟨[Item.point ⟨0, 0⟩], some (Item.text ⟨0, 0⟩)⟩]
      [⟨[Item.point ⟨0, 0⟩], none⟩] rfl).2.2.2.2⟩

/-- Exported polygon coordinates import back to the original vertices. -/
theorem coord_pair_roundTrip (pts : List Coord) :
    (pts.map fun pt => ((pt.lng, pt.lat) : ℚ × ℚ)).map (fun c => (⟨c.2, c.1⟩ : Coord)) =
      pts := by
  induction pts with
  | nil => rfl
  | cons p r ih => simp [ih]

/-- Exported line coordinates import back to the original vertices with
all elevations reset to null. -/
theorem line_pair_roundTrip (pts : List LineVertex) :
    (pts.map fun p => ((p.lng, p.lat) : ℚ × ℚ)).map
        (fun c => (⟨c.2, c.1, none⟩ : LineVertex)) =
      pts.map fun v => { v with elev := none } := by
  induction pts with
  | nil => rfl
  | cons p r ih => simp [ih]

/-- Compositional form of `coord_pair_roundTrip` (as produced by
`List.map_map`). -/
theorem coord_pair_roundTrip_comp (pts : List Coord) :
    List.map ((fun c => (⟨c.2, c.1⟩ : Coord)) ∘ fun pt => ((pt.lng, pt.lat) : ℚ × ℚ)) pts =
      pts := by
  induction pts with
  | nil => rfl
  | cons p r ih => simp only [List.map_cons, ih, Function.comp]

/-- Compositional form of `line_pair_roundTrip`. -/
theorem line_pair_roundTrip_comp (pts : List LineVertex) :
    List.map ((fun c => (⟨c.2, c.1, none⟩ : LineVertex)) ∘
        fun p => ((p.lng, p.lat) : ℚ × ℚ)) pts =
      pts.map fun v => { v with elev := none } := by
  induction pts with
  | nil => rfl
  | cons p r ih => simp only [List.map_cons, ih, Function.comp]

/-- C3 (amended): exporting a collection of one Point, one Line, one
Polygon, one Sector and one Text, then importing the document into fresh
tool instances, reproduces identical entity field values — with one
exception: the Line's per-vertex elevations are not written by the
exporter and import as explicit nulls.  Point and Sector elevations are
preserved, explicit nulls included.  The truthiness side conditions come
from the `||` defaulting on import (empty-string colors/styles and a
zero text size would be replaced by defaults). -/
theorem roundTrip_preserves_fields_except_line_elevations (M : JsMath)
    (pt : PointEntity) (ln : LineEntity) (pg : PolygonEntity) (sec : SectorEntity)
    (tx : TextEntity) (hlc : ln.color ≠ "") (hls : ln.style ≠ "")
    (hpg : pg.points ≠ []) (hsc : sec.color ≠ "") (htc : tx.color ≠ "")
    (hts : tx.size ≠ 0) :
    ToolSet.importDoc ToolSet.fresh (ToolSet.exportAll M ⟨[pt], [ln], [pg], [sec], [tx]⟩) =
      ⟨[pt], [{ ln with points := ln.points.map fun v => { v with elev := none } }],
        [pg], [sec], [tx]⟩ := by
  simp [ToolSet.exportAll, ToolSet.importDoc, ToolSet.importFeature, ToolSet.fresh,
    PointsTool.toGeoJSON, PolylineTool.toGeoJSON, PolygonTool.toGeoJSON,
    SectorTool.toGeoJSON, TextTool.toGeoJSON,
    PointsTool.fromGeoJSON, PolylineTool.fromGeoJSON, PolygonTool.fromGeoJSON,
    SectorTool.fromGeoJSON, TextTool.fromGeoJSON,
    PointsTool.accepts, PolylineTool.accepts, PolygonTool.accepts,
    SectorTool.accepts, TextTool.accepts, Geometry.typeName,
    jsOrStr, jsOrNum, hlc, hls, hsc, htc, hts,
    coord_pair_roundTrip, line_pair_roundTrip,
    coord_pair_roundTrip_comp, line_pair_roundTrip_comp]

/-- A concrete committed Point (non-null elevation) for C3. -/
def pt0 : PointEntity := ⟨10, 20, some 100, "black", "circle"⟩

/-- A concrete committed 3-vertex Line whose first vertex has a resolved
(non-null) elevation, for C3. -/
def ln0 : LineEntity := ⟨[⟨0, 0, some 100⟩, ⟨0, 1, none⟩, ⟨1, 1, none⟩], "black", "solid"⟩

/-- A concrete committed 4-vertex Polygon for C3. -/
def pg0 : PolygonEntity := ⟨[⟨0, 0⟩, ⟨0, 1⟩, ⟨1, 1⟩, ⟨1, 0⟩], "green", 1 / 4⟩

/-- A concrete committed Sector (null elevation) for C3. -/
def sec0 : SectorEntity := ⟨⟨5, 5⟩, 1000, 90, 3, none, "black"⟩

/-- A concrete committed Text for C3. -/
def tx0 : TextEntity := ⟨3, 4, some "hello", "black", 14⟩

/-- Witness for C3 (amended): the concrete five-entity round trip
reproduces every field, with the Line's vertex elevations reset to null. -/
theorem roundTrip_preserves_fields_except_line_elevations_witness :
    ToolSet.importDoc ToolSet.fresh
        (ToolSet.exportAll M0 ⟨[pt0], [ln0], [pg0], [sec0], [tx0]⟩) =
      ⟨[pt0], [{ ln0 with points := ln0.points.map fun v => { v with elev := none } }],
        [pg0], [sec0], [tx0]⟩ :=
  roundTrip_preserves_fields_except_line_elevations M0 pt0 ln0 pg0 sec0 tx0
    (by decide) (by decide) (by decide) (by decide) (by decide) (by decide)

/-- Counterexample for C3 as stated: round-tripping the concrete
collection does NOT reproduce identical entity field values — the Line's
first vertex had elevation 100, but line export writes bare (lng, lat)
pairs (no elevations) and import resets every vertex elevation to null,
so the re-imported line collection differs from the original. -/
theorem roundTrip_drops_line_elevation_counterexample :
    (ToolSet.importDoc ToolSet.fresh
        (ToolSet.exportAll M0 ⟨[pt0], [ln0], [pg0], [sec0], [tx0]⟩)).lines ≠ [ln0] := by
  have h : (ToolSet.importDoc ToolSet.fresh
      (ToolSet.exportAll M0 ⟨[pt0], [ln0], [pg0], [sec0], [tx0]⟩)).lines =
        [⟨[⟨0, 0, none⟩, ⟨0, 1, none⟩, ⟨1, 1, none⟩], "black", "solid"⟩] := by
    norm_num [ToolSet.exportAll, ToolSet.importDoc, ToolSet.importFeature, ToolSet.fresh,
      PointsTool.toGeoJSON, PolylineTool.toGeoJSON, PolygonTool.toGeoJSON,
      SectorTool.toGeoJSON, TextTool.toGeoJSON,
      PointsTool.fromGeoJSON, PolylineTool.fromGeoJSON, PolygonTool.fromGeoJSON,
      SectorTool.fromGeoJSON, TextTool.fromGeoJSON,
      PointsTool.accepts, PolylineTool.accepts, PolygonTool.accepts,
      SectorTool.accepts, TextTool.accepts, Geometry.typeName,
      jsOrStr, jsOrNum, pt0, ln0, pg0, sec0, tx0]
  rw [h]
  decide
